import Mathlib

/-!
Verification of the CIPilot batch-migration pipeline specification against the
source in `src/`. Each Python function relevant to a claim is shallowly embedded
as an executable Lean definition; network and LLM calls are abstracted as oracle
inputs, while the decision logic is translated line by line from the source.
-/

set_option linter.unusedVariables false

/-! ## Shared stage status (src/pipeline/models.py, `StageStatus`) -/

/-- Embeds `StageStatus` from src/pipeline/models.py. -/
inductive StageStatus where
  | pending
  | running
  | success
  | failed
  | skipped
deriving DecidableEq, Repr

/-! ## C1: the PR gate (src/pipeline/config.py) -/

/-- Embeds `StrictnessLevel` from src/pipeline/config.py. -/
inductive StrictnessLevel where
  | strict
  | lint_only
  | permissive
  | dry_run
deriving DecidableEq, Repr

/-- The fields of `PipelineConfig` (src/pipeline/config.py) read by
`should_create_pr`. -/
structure PipelineConfig where
  strictness : StrictnessLevel
  pr_on_lint_fail : Bool
  pr_on_double_check_fail : Bool
deriving DecidableEq, Repr

/-- Embeds `PipelineConfig.should_create_pr` (src/pipeline/config.py lines
73-90), branch for branch. -/
def PipelineConfig.should_create_pr (c : PipelineConfig)
    (lint_passed double_check_passed : Bool) : Bool :=
  if c.strictness = .dry_run then
    false
  else if c.strictness = .permissive then
    true
  else if c.strictness = .lint_only then
    lint_passed || c.pr_on_lint_fail
  else
    -- STRICT mode
    if !lint_passed then c.pr_on_lint_fail
    else if !double_check_passed then c.pr_on_double_check_fail
    else true

/-- The strictness decision matrix exactly as the specification words it
(spec section 4.11 and the C1 claim text): dry_run never allows a PR;
permissive always does; lint_only allows one iff lint passed or the
`pr_on_lint_fail` override is set; strict: on lint failure iff
`pr_on_lint_fail`, else on double-check failure iff
`pr_on_double_check_fail`, and otherwise allows it. -/
def prDecisionMatrix (s : StrictnessLevel)
    (onLintFail onDoubleCheckFail lint dc : Bool) : Bool :=
  match s with
  | .dry_run => false
  | .permissive => true
  | .lint_only => lint || onLintFail
  | .strict =>
      if lint = false then onLintFail
      else if dc = false then onDoubleCheckFail
      else true

/-- C1: for every strictness level and every combination of stage outcomes,
`PipelineConfig.should_create_pr` follows the strictness decision matrix of
the specification. -/
theorem claim1_should_create_pr_matches_matrix
    (s : StrictnessLevel) (onLintFail onDoubleCheckFail lint dc : Bool) :
    (PipelineConfig.should_create_pr ⟨s, onLintFail, onDoubleCheckFail⟩ lint dc)
      = prDecisionMatrix s onLintFail onDoubleCheckFail lint dc := by
  cases s <;> cases onLintFail <;> cases onDoubleCheckFail <;>
    cases lint <;> cases dc <;> rfl

/-! ## C2 / C8: the semantic verifier (src/backend/llm_converter.py,
`semantic_verify_migration`) and the double-check stage
(src/pipeline/stages/double_check.py, `semantic_double_check`).

The LLM call itself is an external collaborator; what is embedded is the
post-processing of its textual response (llm_converter.py lines 619-686).
The JSON parser is abstracted: an `LLMResponse` is either the empty response,
a response `json.loads` rejects (carrying the outcome of the source's
substring test on the lowered text), or a parsed JSON object whose fields may
each be absent (the source reads every one of them through `dict.get` with a
default). Responses that parse to a non-object JSON value fall outside every
claim considered here and are not modelled. -/

/-- A parsed JSON verdict object, field for field as
`semantic_verify_migration` reads it: each field is `none` when the key is
absent, in which case the source's `result.get(key, default)` supplies the
default. -/
structure ParsedVerdict where
  passed : Option Bool
  reasons : Option (List String)
  missing_features : Option (List String)
  hallucinated_steps : Option (List String)
  confidence : Option ℚ
deriving DecidableEq, Repr

/-- The three response shapes distinguished by the post-processing code of
`semantic_verify_migration`: empty text (line 623), text that
`json.loads` rejects (line 667, carrying the result of the source's check
`"passed" in result_lower and ("true" in result_lower or "yes" in
result_lower)` on line 673), or a parsed JSON object. -/
inductive LLMResponse where
  | empty
  | unparseable (textSaysPassed : Bool)
  | parsed (j : ParsedVerdict)
deriving DecidableEq, Repr

/-- The verdict dictionary `semantic_verify_migration` returns. The
`hallucinated_steps` key is absent from the dictionaries built on the empty
and unparseable paths; since its only reader (`semantic_double_check`)
fetches it with default `[]`, that absence is modelled as `[]`. -/
structure Verdict where
  passed : Bool
  reasons : List String
  missing_features : List String
  hallucinated_steps : List String
  confidence : ℚ
deriving DecidableEq, Repr

/-- Embeds the response post-processing of `semantic_verify_migration`
(src/backend/llm_converter.py lines 619-686):
* empty response → passed with confidence 0.7 (lines 623-630);
* parsed object → fields read through `get` with defaults; any non-empty
  `hallucinated_steps` together with `passed=true` is overridden to a FAIL
  (lines 649-665) — note there is no filtering of checkout/setup actions on
  this path;
* `json.JSONDecodeError` → passed with confidence 0.6 when the raw text
  mentions `passed` and `true`/`yes`, else passed with confidence 0.5
  (lines 667-686). -/
def semantic_verify_migration : LLMResponse → Verdict
  | .empty =>
      { passed := true
        reasons := ["Verification completed (model returned empty response - assuming valid)"]
        missing_features := []
        hallucinated_steps := []
        confidence := 7/10 }
  | .parsed j =>
      let hallucinated := j.hallucinated_steps.getD []
      let missing := j.missing_features.getD []
      let passed0 := j.passed.getD false
      -- `if hallucinated and passed: passed = False` (lines 655-657)
      let passed := if !hallucinated.isEmpty && passed0 then false else passed0
      { passed := passed
        reasons := j.reasons.getD []
        missing_features := missing
        hallucinated_steps := hallucinated
        confidence := j.confidence.getD (1/2) }
  | .unparseable textSaysPassed =>
      if textSaysPassed then
        { passed := true
          reasons := ["Verification passed (inferred from non-JSON response)"]
          missing_features := []
          hallucinated_steps := []
          confidence := 3/5 }
      else
        { passed := true
          reasons := ["Could not parse verification (assuming valid)"]
          missing_features := []
          hallucinated_steps := []
          confidence := 1/2 }

/-- Embeds `DoubleCheckResult` from src/pipeline/models.py. -/
structure DoubleCheckResult where
  status : StageStatus
  passed : Bool
  reasons : List String
  missing_features : List String
  hallucinated_steps : List String
  confidence : ℚ
  error : Option String
deriving DecidableEq, Repr

/-- Embeds the successful-call path of `semantic_double_check`
(src/pipeline/stages/double_check.py lines 43-63): the verifier's dictionary
is copied into a `DoubleCheckResult` through `get` with defaults, and the
stage status is SUCCESS exactly when the verdict passed. -/
def semantic_double_check (resp : LLMResponse) : DoubleCheckResult :=
  let v := semantic_verify_migration resp
  { status := if v.passed then .success else .failed
    passed := v.passed
    reasons := v.reasons
    missing_features := v.missing_features
    hallucinated_steps := v.hallucinated_steps
    confidence := v.confidence
    error := none }

/-- The model verdict the specification itself gives as the example for C2:
`hallucinated_steps = ["actions/checkout@v4"]` and otherwise-clean output
(the model marked it passed, nothing missing, high confidence). -/
def checkoutOnlyVerdict : ParsedVerdict :=
  { passed := some true
    reasons := some []
    missing_features := some []
    hallucinated_steps := some ["actions/checkout@v4"]
    confidence := some (19/20) }

/-- C2 counterexample: on the claim's own example — a verdict whose
hallucinated steps are exactly `["actions/checkout@v4"]` and which is
otherwise clean — the pipeline's double-check stage records
`passed = false` and status FAILED, and the step is not filtered out;
the claimed `double_check.passed = true` is false here. -/
theorem claim2_counterexample_checkout_is_not_filtered :
    (semantic_double_check (.parsed checkoutOnlyVerdict)).passed = false
    ∧ (semantic_double_check (.parsed checkoutOnlyVerdict)).status = .failed
    ∧ (semantic_double_check (.parsed checkoutOnlyVerdict)).hallucinated_steps
        = ["actions/checkout@v4"] := by
  refine ⟨rfl, rfl, rfl⟩

/-- C2 amended: the pipeline's double-check stage performs no filtering of
host-standard setup actions: for every parsed verdict with a non-empty
`hallucinated_steps` list — host-standard setup actions included — the stage
records `passed = false` with status FAILED and keeps the list verbatim. A
model failure resting only on such steps is never flipped back to a pass on
this path (the checkout/setup filtering exists only in the backend
single-conversion paths, src/backend/main.py and
src/backend/agentic_pipeline.py, which the batch pipeline does not call). -/
theorem claim2_amended_nonempty_hallucinated_always_fails
    (j : ParsedVerdict) (h : j.hallucinated_steps.getD [] ≠ []) :
    (semantic_double_check (.parsed j)).passed = false
    ∧ (semantic_double_check (.parsed j)).status = .failed
    ∧ (semantic_double_check (.parsed j)).hallucinated_steps
        = j.hallucinated_steps.getD [] := by
  have hne : (j.hallucinated_steps.getD []).isEmpty = false := by
    cases hl : j.hallucinated_steps.getD [] with
    | nil => exact absurd hl h
    | cons a l => rfl
  refine ⟨?_, ?_, ?_⟩ <;>
    cases hp : j.passed.getD false <;>
      simp [semantic_double_check, semantic_verify_migration, hne, hp]

/-- Witness for the C2 amended theorem at the concrete checkout-only
verdict. -/
theorem claim2_amended_witness :
    checkoutOnlyVerdict.hallucinated_steps.getD [] ≠ []
    ∧ (semantic_double_check (.parsed checkoutOnlyVerdict)).passed = false := by
  refine ⟨by decide, ?_⟩
  exact (claim2_amended_nonempty_hallucinated_always_fails
    checkoutOnlyVerdict (by decide)).1

/-- C8: every verifier response that is empty or that cannot be parsed as
JSON yields a verdict with `passed = true` and confidence at most 0.7 —
never a blocking failure. -/
theorem claim8_unparseable_response_passes_with_reduced_confidence
    (resp : LLMResponse)
    (h : resp = .empty ∨ ∃ b, resp = .unparseable b) :
    (semantic_verify_migration resp).passed = true
    ∧ (semantic_verify_migration resp).confidence ≤ 7/10 := by
  rcases h with h | ⟨b, h⟩
  · subst h
    exact ⟨rfl, le_refl _⟩
  · subst h
    cases b
    · exact ⟨rfl, by norm_num [semantic_verify_migration]⟩
    · exact ⟨rfl, by norm_num [semantic_verify_migration]⟩

/-- Witness for C8 at the empty response. -/
theorem claim8_witness :
    (semantic_verify_migration .empty).passed = true
    ∧ (semantic_verify_migration .empty).confidence ≤ 7/10 :=
  claim8_unparseable_response_passes_with_reduced_confidence .empty (Or.inl rfl)

/-! ## C3 / C4: the streaming CSV reporter (src/pipeline/reporters/
csv_reporter.py, class `CSVReporter`) and the resume preamble of
`PipelineRunner.run` (src/pipeline/runner.py lines 177-227).

The output file is modelled as `Option (List CsvRow)`: `none` when the file
does not exist, `some rows` when it exists and holds the header followed by
`rows`. A row keeps the two columns the claims inspect (`repo_url`,
`overall_status`) plus one opaque field standing for every other column, so
that "appears unchanged" is meaningful. -/

/-- One CSV data row: the columns the claims inspect plus the remaining
columns collapsed into one opaque payload. -/
structure CsvRow where
  repo_url : String
  overall_status : String
  otherColumns : String
deriving DecidableEq, Repr

/-- The state of a `CSVReporter` (csv_reporter.py lines 63-76) together with
the output file it owns: `_initialized`, `_processed_repos`, and the file
content. -/
structure CSVReporterState where
  file : Option (List CsvRow)
  initialized : Bool
  processed : List String
deriving DecidableEq, Repr

/-- Embeds `CSVReporter.initialize` (csv_reporter.py lines 78-91): a no-op
when `_initialized` is already set; otherwise it opens the output path in
mode `"w"` — truncating any existing file — and writes the header, leaving
an existing-but-uninitialized file with the header only. It never checks
whether the file already exists. -/
def CSVReporterState.initializeCsv (st : CSVReporterState) : CSVReporterState :=
  if st.initialized then st
  else { st with file := some [], initialized := true }

/-- Embeds `CSVReporter.write_result` (csv_reporter.py lines 93-105): runs
`initialize` when not yet initialized, records the repo URL in
`_processed_repos`, and appends exactly one row. The Python method has no
`return` statement, so the value the runner binds at runner.py line 802
(`row_index = self.csv_reporter.write_result(ci_result)`) is always `None`;
that absent index is the `Option Nat` component, always `none`. -/
def CSVReporterState.write_result (st : CSVReporterState) (row : CsvRow) :
    CSVReporterState × Option Nat :=
  let st1 := if st.initialized then st else st.initializeCsv
  let rows := st1.file.getD []
  ({ st1 with
      file := some (rows ++ [row])
      processed := st1.processed ++ [row.repo_url] },
   none)

/-- Embeds `CSVReporter.load_processed_repos` (csv_reporter.py lines
112-128): the set of `repo_url` values of every row of the existing file —
terminal or not; an absent file gives the empty set. -/
def CSVReporterState.load_processed_repos (st : CSVReporterState) : List String :=
  match st.file with
  | none => []
  | some rows => rows.map (·.repo_url)

/-- The class `CSVReporter` defines no method named `update_result`
(csv_reporter.py has only `initialize`, `write_result`, `write_results`,
`load_processed_repos`, `get_summary`), yet runner.py lines 490, 525, 553,
596, 653 and 698 invoke `self.csv_reporter.update_result(...)`. Calling the
missing attribute raises `AttributeError`; the call sites are guarded by
`task.row_index is not None`, so with `row_index = none` the file is left
untouched and with `row_index = some i` the call raises. -/
def ghaTaskCsvUpdate (st : CSVReporterState) (rowIndex : Option Nat)
    (row : CsvRow) : Except String CSVReporterState :=
  match rowIndex with
  | none => .ok st
  | some _ => .error "AttributeError: CSVReporter object has no attribute update_result"

/-- A repository reference as loaded from the input file
(src/pipeline/models.py, `RepoInput`), reduced to its identity. -/
structure RepoInput where
  repo_url : String
deriving DecidableEq, Repr

/-- Embeds the resume preamble of `PipelineRunner.run` (runner.py lines
177-221) with cloud GHA verification disabled (so `gha_pending_tasks`
stays empty): a fresh `CSVReporter` is constructed (`_initialized = False`),
with `--resume` the processed URLs are loaded and already-present
repositories are filtered out of the input; if nothing remains the run
returns early, otherwise `initialize()` is called on the reporter —
truncating the existing output file. Returns the reporter state after the
preamble, the repositories still to process, and whether the early return
was taken. -/
def runResumePrelude (file : Option (List CsvRow)) (repos : List RepoInput) :
    CSVReporterState × List RepoInput × Bool :=
  let st : CSVReporterState := { file := file, initialized := false, processed := [] }
  let processedRepos := st.load_processed_repos
  let repos2 := repos.filter (fun r => !processedRepos.contains r.repo_url)
  if repos2.isEmpty then (st, repos2, true)
  else (st.initializeCsv, repos2, false)

/-- Embeds the sequential processing loop (`_run_sequential`, runner.py
lines 229-243, with the CSV write of `_process_repo`, line 1055): each
remaining repository contributes its rows to the output through
`write_result`. The per-repository stages are abstracted into the `rowOf`
argument. -/
def runMainLoop (st : CSVReporterState) (repos : List RepoInput)
    (rowOf : RepoInput → CsvRow) : CSVReporterState :=
  repos.foldl (fun s r => (s.write_result (rowOf r)).1) st

/-- The concrete terminal row already present in the output file O of the
C3 scenario. -/
def priorRowA : CsvRow :=
  { repo_url := "https://github.com/alice/alpha"
    overall_status := "success"
    otherColumns := "travis,..." }

/-- The two input repositories of the C3 scenario; the first already has the
terminal row `priorRowA` in O. -/
def resumeRepoA : RepoInput := { repo_url := "https://github.com/alice/alpha" }

/-- Second scenario repository, not yet present in O. -/
def resumeRepoB : RepoInput := { repo_url := "https://github.com/bob/beta" }

/-- Stage outcome abstraction for the C3 scenario: each processed repository
produces one terminal row. -/
def demoRowOf (r : RepoInput) : CsvRow :=
  { repo_url := r.repo_url, overall_status := "success", otherColumns := "fresh" }

/-- C3: running with `--resume` against an output file O holding the
terminal row `priorRowA` and the input `[A, B]`: repository A is indeed not
processed again (only B remains), but `run` then calls
`CSVReporter.initialize`, which opens the file in mode `"w"` and truncates
it, so the final file holds only B's fresh row — the terminal row of O does
NOT appear in O′, contradicting the resume property (and the code's own
comment `# Initialize CSV (creates headers if new file)` at runner.py line
206). -/
theorem claim3_resume_truncates_previous_rows :
    (runResumePrelude (some [priorRowA]) [resumeRepoA, resumeRepoB]).2.1 = [resumeRepoB]
    ∧ (runResumePrelude (some [priorRowA]) [resumeRepoA, resumeRepoB]).2.2 = false
    ∧ (runMainLoop (runResumePrelude (some [priorRowA]) [resumeRepoA, resumeRepoB]).1
        [resumeRepoB] demoRowOf).file
        = some [demoRowOf resumeRepoB]
    ∧ priorRowA ∉ (runMainLoop (runResumePrelude (some [priorRowA]) [resumeRepoA, resumeRepoB]).1
        [resumeRepoB] demoRowOf).file.getD [] := by
  refine ⟨by decide, by decide, by decide, by decide⟩

/-- The `gha_pending` row written for a repository handed to the runtime
verification queue (runner.py lines 800-806). -/
def pendingRowC : CsvRow :=
  { repo_url := "https://github.com/carol/gamma"
    overall_status := "gha_pending"
    otherColumns := "circleci,..." }

/-- The same row after runtime verification completes, as the runner would
wish to persist it. -/
def completedRowC : CsvRow :=
  { repo_url := "https://github.com/carol/gamma"
    overall_status := "success"
    otherColumns := "circleci,...,pr" }

/-- C4: three refuted parts of the claim, evaluated on concrete inputs.
(1) `write_result` returns no row index: the value the runner binds at
runner.py line 802 is `none`, so the task's `row_index` stays `None`.
(2) Hence when the task completes, every `update_result` call site is
guarded out and the file still shows the row as `gha_pending` — the single
update that should move the row out of the runtime-pending state never
happens (and the reporter has no `update_result` to perform it: an unguarded
call raises `AttributeError`).
(3) `write_result` does not write the header only `if the output file does
not exist`: on a fresh reporter over an existing file holding a row, the
first write truncates the file, destroying that row. -/
theorem claim4_write_result_returns_no_index_and_no_update :
    (CSVReporterState.write_result
        { file := none, initialized := false, processed := [] } pendingRowC).2 = none
    ∧ ghaTaskCsvUpdate
        (CSVReporterState.write_result
          { file := none, initialized := false, processed := [] } pendingRowC).1
        (CSVReporterState.write_result
          { file := none, initialized := false, processed := [] } pendingRowC).2
        completedRowC
        = .ok (CSVReporterState.write_result
          { file := none, initialized := false, processed := [] } pendingRowC).1
    ∧ (CSVReporterState.write_result
        { file := none, initialized := false, processed := [] } pendingRowC).1.file
        = some [pendingRowC]
    ∧ (CSVReporterState.write_result
        { file := some [priorRowA], initialized := false, processed := [] } pendingRowC).1.file
        = some [pendingRowC] := by
  refine ⟨rfl, rfl, rfl, rfl⟩

/-! ## C5: CI detection (src/pipeline/stages/detect.py, `detect_ci`) against
the `DetectionResult` of src/pipeline/models.py.

detect.py imports `DetectionResult` from src/pipeline/models.py (it puts
`src/pipeline` on `sys.path` and does `from models import ...`). In that
class only the dataclass fields `status`, `detected_configs` and `error` are
assignable; `detected_ci`, `source_yaml`, `source_path` and `all_detected`
are `@property` methods without setters, so assigning to them raises
`AttributeError`. The pattern-scanning loop (detect.py lines 48-96) wraps
each candidate check in `try: ... except Exception: continue`, so it always
terminates normally — every network error inside it is swallowed and treated
as a non-match — and its outcome is abstracted here as the primary match (if
any) plus the list of detected kinds. What is embedded exactly is the
terminal attribute-assignment sequence (lines 99-112) together with the
surrounding `except Exception` handler (lines 122-125). -/

/-- Embeds `DetectedConfig` from src/pipeline/models.py. -/
structure DetectedConfig where
  ci_type : String
  source_yaml : String
  source_path : String
deriving DecidableEq, Repr

/-- Embeds the assignable state of `DetectionResult`
(src/pipeline/models.py lines 52-57): its three dataclass fields. -/
structure DetectionResult where
  status : StageStatus
  detected_configs : List DetectedConfig
  error : Option String
deriving DecidableEq, Repr

/-- An attribute assignment `result.<name> = value` performed by
`detect_ci`, one constructor per attribute name it writes. -/
inductive DetectAssign where
  | status (v : StageStatus)
  | error (v : Option String)
  | detected_ci (v : Option String)
  | source_yaml (v : Option String)
  | source_path (v : Option String)
  | all_detected (v : List String)
deriving DecidableEq, Repr

/-- Python attribute-assignment semantics on a `DetectionResult` instance:
the dataclass fields `status` and `error` are writable; `detected_ci`,
`source_yaml`, `source_path` and `all_detected` are read-only properties of
src/pipeline/models.py (lines 59-78), so assigning them raises
`AttributeError` (modelled as `Except.error` carrying the message). -/
def DetectionResult.setAttr (r : DetectionResult) :
    DetectAssign → Except String DetectionResult
  | .status v => .ok { r with status := v }
  | .error v => .ok { r with error := v }
  | .detected_ci _ => .error "cannot set attribute detected_ci"
  | .source_yaml _ => .error "cannot set attribute source_yaml"
  | .source_path _ => .error "cannot set attribute source_path"
  | .all_detected _ => .error "cannot set attribute all_detected"

/-- Runs a sequence of attribute assignments, stopping at the first raised
`AttributeError` and returning the state reached together with the pending
exception, exactly as Python leaves the mutated object when an assignment in
the middle of the sequence raises. -/
def applyAssigns (r : DetectionResult) :
    List DetectAssign → DetectionResult × Option String
  | [] => (r, none)
  | a :: rest =>
      match r.setAttr a with
      | .ok r2 => applyAssigns r2 rest
      | .error msg => (r, some msg)

/-- The outcome of the pattern-scanning loop of `detect_ci` (lines 34-96),
abstracted: the primary match — CI kind, its YAML and its path — if one was
found, and the accumulated `all_detected` list. The loop cannot raise: each
candidate check is inside `try: ... except Exception: continue`. -/
structure ScanOutcome where
  primary : Option (String × String × String)
  all_detected : List String
deriving DecidableEq, Repr

/-- Embeds one attempt of `detect_ci` (detect.py lines 45-125) after the
scanning loop: the terminal assignment sequences of the found-CI path
(lines 99-105) and the no-CI path (lines 107-112), with the
`except Exception` handler (lines 122-125) applied to the partially mutated
result when an assignment raises. The fresh `result = DetectionResult()`
of line 27 supplies the initial field values. -/
def detect_ci (scan : ScanOutcome) : DetectionResult :=
  let r0 : DetectionResult := { status := .pending, detected_configs := [], error := none }
  let assigns : List DetectAssign :=
    match scan.primary with
    | some (ci, yaml, path) =>
        [ .status .success
        , .detected_ci (some ci)
        , .source_yaml (some yaml)
        , .source_path (some path)
        , .all_detected scan.all_detected ]
    | none =>
        [ .status .success  -- "Detection succeeded, just nothing found"
        , .detected_ci none
        , .all_detected scan.all_detected
        , .error (some "No CI configuration found") ]
  match applyAssigns r0 assigns with
  | (r, none) => r
  | (r, some msg) =>
      { r with status := .failed, error := some ("Detection error: " ++ msg) }

/-- C5: evaluating `detect_ci` on a repository in which no recognised CI
configuration file exists (the scan finds nothing). The claim — and the
code's own comment `# Detection succeeded, just nothing found` — say the
stage returns SUCCESS with an empty set of detected configs; the code
instead assigns `result.detected_ci`, a read-only property of
`DetectionResult`, raising `AttributeError`, which the generic
`except Exception` handler turns into an immediate FAILED result (and not a
network-exhaustion failure, nor one reached after the retry loop). -/
theorem claim5_no_ci_found_reports_failure :
    (detect_ci { primary := none, all_detected := [] }).status = .failed
    ∧ (detect_ci { primary := none, all_detected := [] }).error
        = some "Detection error: cannot set attribute detected_ci"
    ∧ (detect_ci { primary := some ("travis", "language: python", ".travis.yml")
                 , all_detected := ["travis"] }).status = .failed := by
  refine ⟨rfl, rfl, rfl⟩

/-! ## C6 / C7: the runtime-verification queue of the orchestrator
(src/pipeline/runner.py: `GHAVerificationTask`, `_process_gha_task`,
`_complete_gha_secret_error`, `_attempt_gha_fix`).

The network-facing pieces are abstracted into oracle arguments: the
classification of a failed run is the `error_type` of the
`GHAVerificationResult` that `verify_gha_run` hands back; the repair agent
(`fix_and_push_workflow`) is an `Option String` — `some fixedYaml` on
success, `none` on failure; PR creation success at the host is a `Bool`. -/

/-- Embeds `GHAErrorType` from src/pipeline/models.py lines 126-132. -/
inductive GHAErrorType where
  | NONE
  | SECRET_ERROR
  | FIXABLE_ERROR
  | TIMEOUT_ERROR
  | UNKNOWN_ERROR
deriving DecidableEq, Repr

/-- Embeds `GHAVerificationResult` from src/pipeline/models.py lines
135-147 (the timing-free fields). -/
structure GHAVerificationResult where
  status : StageStatus
  run_conclusion : Option String
  error_type : GHAErrorType
  error_logs : Option String
  fix_attempts : Nat
  fixed_yaml : Option String
  error : Option String
deriving DecidableEq, Repr

/-- Embeds the shape of the result `verify_gha_run` (src/pipeline/stages/
gha_verify.py lines 353-447) returns for a run that completed
unsuccessfully and whose logs were classified: the function builds a fresh
`GHAVerificationResult` at line 379 — so `fix_attempts` is the dataclass
default 0, never touched afterwards — and the failure path sets status
FAILED with the classifier's error type and log snippet (lines 426-439).
`classify_error` itself (regex matching over log text) is abstracted into
the `error_type` / `error_logs` arguments. -/
def classifiedFailure (et : GHAErrorType) (logs : Option String)
    (conclusion : Option String) : GHAVerificationResult :=
  { status := .failed
    run_conclusion := conclusion
    error_type := et
    error_logs := logs
    fix_attempts := 0
    fixed_yaml := none
    error := some "Workflow failed" }

/-- Embeds `GHAVerificationTask` from src/pipeline/runner.py lines 52-63
(without the shared `result` reference, passed separately). -/
structure GHATask where
  fork_owner : String
  repo_name : String
  branch_name : String
  workflow_path : String
  current_yaml : String
  source_ci : String
  fix_attempt : Nat
  row_index : Option Nat
deriving DecidableEq, Repr

/-- A pull-request record: stage status plus the PR body as lines. -/
structure PullRequestRecord where
  status : StageStatus
  bodyLines : List String
deriving DecidableEq, Repr

/-- The slice of a `RepoResult` (src/pipeline/models.py) the runtime queue
mutates. -/
structure RepoResultLite where
  gha_verification : GHAVerificationResult
  pull_request : PullRequestRecord
  overall_status : String
deriving DecidableEq, Repr

/-- The caveat line `_complete_gha_secret_error` passes to the PR publisher,
verbatim from src/pipeline/runner.py line 531. -/
def secretCaveatText : String :=
  "⚠️ The workflow failed during testing due to missing secrets/tokens. Please configure the required secrets in your repository settings."

/-- Modelled from the spec: `create_pr_only` is imported in runner.py from
`stages.pull_request` but that function is absent from src (the
pull_request.py present defines only `create_pull_request` and helpers).
Per spec sections 4.9 and 4.11, the PR publisher opens a pull request with
a structured body identifying the tool and the source CI kind, states the
runtime-verification outcome, and a caveated PR embeds the human-readable
caveat line (`gha_info`) in its body. Whether the host accepts the PR is
the `ok` oracle. -/
def create_pr_only (ok : Bool) (source_ci : String) (gha_verified : Bool)
    (gha_info : Option String) : PullRequestRecord :=
  if ok then
    { status := .success
      bodyLines :=
        [ "CI/CD Migration"
        , "Source CI: " ++ source_ci
        , if gha_verified then "Runtime verification: verified"
          else "Runtime verification: see caveat" ]
        ++ (match gha_info with
            | some line => [line]
            | none => []) }
  else
    { status := .failed, bodyLines := [] }

/-- The branch `_process_gha_task` takes for a task (runner.py lines
450-480): run success → PR; secret error → PR with caveat; fixable error
below the retry cap → repair agent; fixable at the cap → max-retries
completion; anything else (timeout / unknown) → failure completion. -/
inductive GHAAction where
  | completeSuccess
  | completeSecretError
  | attemptFix
  | completeMaxRetries
  | completeFailure
deriving DecidableEq, Repr

/-- Embeds the dispatch of `_process_gha_task` (runner.py lines 450-480).
`cloud_gha_retries` is the configured maximum number of fix attempts (a
`PipelineConfig` field the runner reads; the config copy under src lacks
it, so it is taken as a plain argument here). -/
def dispatchGhaTask (cloud_gha_retries : Nat) (t : GHATask)
    (g : GHAVerificationResult) : GHAAction :=
  if g.status = .success then .completeSuccess
  else if g.error_type = .SECRET_ERROR then .completeSecretError
  else if g.error_type = .FIXABLE_ERROR then
    if t.fix_attempt < cloud_gha_retries then .attemptFix
    else .completeMaxRetries
  else .completeFailure

/-- Embeds `result.gha_verification = gha_result` (runner.py line 444): the
task's shared result object has its verification slot replaced by the fresh
outcome of `verify_gha_run`. -/
def updateForVerification (res : RepoResultLite) (g : GHAVerificationResult) :
    RepoResultLite :=
  { res with gha_verification := g }

/-- Embeds `_complete_gha_secret_error` (runner.py lines 527-553): opens a
PR through `create_pr_only` with `gha_verified=False` and the secret-caveat
line as `gha_info`, and sets `overall_status` to `"success"` when the PR
was created, else `"partial"`. Note: unlike `_complete_gha_success`
(line 504), `_complete_gha_max_retries` (line 613) and
`_complete_gha_failure` (line 658), this function does NOT copy
`task.fix_attempt` into `result.gha_verification.fix_attempts`. -/
def complete_gha_secret_error (prCreationOk : Bool) (t : GHATask)
    (res : RepoResultLite) : RepoResultLite :=
  let pr := create_pr_only prCreationOk t.source_ci false (some secretCaveatText)
  { res with
      pull_request := pr
      overall_status := if pr.status = .success then "success" else "partial" }

/-- Embeds the requeue decision of `_attempt_gha_fix` (runner.py lines
555-608): when the repair agent returns a fixed YAML, a new
`GHAVerificationTask` is built from the old one with `current_yaml` set to
the fix and `fix_attempt` incremented (lines 582-592); on repair failure no
task is enqueued (the flow falls through to `_complete_gha_max_retries`). -/
def attempt_gha_fix_requeue (t : GHATask) (fixedYaml : Option String) :
    Option GHATask :=
  match fixedYaml with
  | some y => some { t with current_yaml := y, fix_attempt := t.fix_attempt + 1 }
  | none => none

/-- The effect of one `_process_gha_task` execution on the queue: which
task (if any) it enqueues, and the net change it applies to
`_gha_pending_count`. A requeueing execution increments the counter by one
under the lock (runner.py lines 599-600) and the `finally` block decrements
it by one (lines 492-494), net 0; every non-requeueing execution only runs
the `finally` decrement, net -1. -/
def process_gha_task_effect (cloud_gha_retries : Nat)
    (fixedYaml : Option String) (t : GHATask) (g : GHAVerificationResult) :
    Option GHATask × Int :=
  match dispatchGhaTask cloud_gha_retries t g with
  | .attemptFix =>
      match attempt_gha_fix_requeue t fixedYaml with
      | some t2 => (some t2, 1 - 1)
      | none => (none, -1)
  | _ => (none, -1)

/-- The task of the C6 counterexample: it re-enters the queue after one
successful repair (`fix_attempt = 1`), and its second run hits a
secret-classified failure. -/
def reenteredTask : GHATask :=
  { fork_owner := "cipilot-bot"
    repo_name := "gamma"
    branch_name := "cipilot/migrated-circleci-to-gha"
    workflow_path := ".github/workflows/ci.yml"
    current_yaml := "name: ci"
    source_ci := "circleci"
    fix_attempt := 1
    row_index := none }

/-- The shared result object of `reenteredTask` as `_attempt_gha_fix` left
it after the first repair: `fix_attempts` was set to 1 (runner.py line
579). -/
def resAfterFirstFix : RepoResultLite :=
  { gha_verification :=
      { status := .failed
        run_conclusion := some "failure"
        error_type := .FIXABLE_ERROR
        error_logs := some "setup-node@v99 not found"
        fix_attempts := 1
        fixed_yaml := some "name: ci"
        error := some "Workflow failed" }
    pull_request := { status := .pending, bodyLines := [] }
    overall_status := "gha_pending" }

/-- C6 counterexample: a task re-entering after one repair
(`fix_attempt = 1`) whose second run is classified as a secret error. Line
444 replaces the result's verification with the fresh
`GHAVerificationResult` of `verify_gha_run` (whose `fix_attempts` is 0),
and `_complete_gha_secret_error` — unlike every other completion path —
does not copy `task.fix_attempt` back, so the recorded `gha_fix_attempts`
is 0 while the task's fix-attempt count is 1: the secret path does NOT
preserve the task's fix-attempt count. -/
theorem claim6_counterexample_fix_attempts_lost :
    (complete_gha_secret_error true reenteredTask
        (updateForVerification resAfterFirstFix
          (classifiedFailure .SECRET_ERROR (some "npm ERR! 401") (some "failure"))
        )).gha_verification.fix_attempts = 0
    ∧ reenteredTask.fix_attempt = 1 := by
  refine ⟨rfl, rfl⟩

/-- C6 amended: whenever the runtime verifier classifies a failed run as a
secret error, the orchestrator makes no repair attempt (the dispatch never
selects the repair branch, whatever the retry cap), opens a PR whose body
contains the secret-caveat wording, and sets `overall_status` to
`"success"` when the PR is created; the recorded `gha_fix_attempts` is
always 0 on this path — which equals the task's count exactly when the
FIRST run hit the secret error (`fix_attempt = 0`), while a re-entered
task's count is lost (see the counterexample). -/
theorem claim6_amended_secret_error_path
    (t : GHATask) (res0 : RepoResultLite) (logs : Option String)
    (concl : Option String) (hfirst : t.fix_attempt = 0) :
    (∀ cloud_gha_retries,
        dispatchGhaTask cloud_gha_retries t
          (classifiedFailure .SECRET_ERROR logs concl) = .completeSecretError)
    ∧ (complete_gha_secret_error true t
        (updateForVerification res0 (classifiedFailure .SECRET_ERROR logs concl))
      ).overall_status = "success"
    ∧ (complete_gha_secret_error true t
        (updateForVerification res0 (classifiedFailure .SECRET_ERROR logs concl))
      ).pull_request.status = .success
    ∧ secretCaveatText ∈ (complete_gha_secret_error true t
        (updateForVerification res0 (classifiedFailure .SECRET_ERROR logs concl))
      ).pull_request.bodyLines
    ∧ (complete_gha_secret_error true t
        (updateForVerification res0 (classifiedFailure .SECRET_ERROR logs concl))
      ).gha_verification.fix_attempts = t.fix_attempt := by
  refine ⟨fun retries => rfl, rfl, rfl, ?_, ?_⟩
  · simp [complete_gha_secret_error, create_pr_only]
  · simp [complete_gha_secret_error, updateForVerification, classifiedFailure,
      create_pr_only, hfirst]

/-- Witness for the C6 amended theorem at a concrete first-run task. -/
theorem claim6_amended_witness :
    ({ reenteredTask with fix_attempt := 0 } : GHATask).fix_attempt = 0
    ∧ (complete_gha_secret_error true { reenteredTask with fix_attempt := 0 }
        (updateForVerification resAfterFirstFix
          (classifiedFailure .SECRET_ERROR (some "npm ERR! 401") (some "failure")))
      ).overall_status = "success" :=
  ⟨rfl,
   (claim6_amended_secret_error_path { reenteredTask with fix_attempt := 0 }
      resAfterFirstFix (some "npm ERR! 401") (some "failure") rfl).2.1⟩

/-- C7: a fixable-classified task strictly below the retry cap whose repair
succeeds enqueues exactly one new task carrying the repaired YAML and
`fix_attempt + 1`, with net pending-counter change 0 (the `+= 1` of the
requeue cancels the `finally` decrement); and every execution that does not
requeue — whatever its outcome — changes the counter by exactly -1. -/
theorem claim7_fixable_requeue_preserves_pending_count
    (cloud_gha_retries : Nat) (t : GHATask) (y : String)
    (logs concl : Option String)
    (hlt : t.fix_attempt < cloud_gha_retries) :
    (process_gha_task_effect cloud_gha_retries (some y) t
        (classifiedFailure .FIXABLE_ERROR logs concl)).1
      = some { t with current_yaml := y, fix_attempt := t.fix_attempt + 1 }
    ∧ (process_gha_task_effect cloud_gha_retries (some y) t
        (classifiedFailure .FIXABLE_ERROR logs concl)).2 = 0
    ∧ ∀ (retries2 : Nat) (fixed2 : Option String) (t2 : GHATask)
        (g2 : GHAVerificationResult),
        (process_gha_task_effect retries2 fixed2 t2 g2).1 = none →
        (process_gha_task_effect retries2 fixed2 t2 g2).2 = -1 := by
  refine ⟨?_, ?_, ?_⟩
  · simp [process_gha_task_effect, dispatchGhaTask, classifiedFailure, hlt,
      attempt_gha_fix_requeue]
  · simp [process_gha_task_effect, dispatchGhaTask, classifiedFailure, hlt,
      attempt_gha_fix_requeue]
  · intro retries2 fixed2 t2 g2 hnone
    unfold process_gha_task_effect at hnone ⊢
    cases hd : dispatchGhaTask retries2 t2 g2 <;> simp [hd] at hnone ⊢
    cases hf : attempt_gha_fix_requeue t2 fixed2 <;> simp [hf] at hnone ⊢

/-- Witness for C7 at a concrete first-attempt fixable task with retry cap
3. -/
theorem claim7_witness :
    ({ reenteredTask with fix_attempt := 0 } : GHATask).fix_attempt < 3
    ∧ (process_gha_task_effect 3 (some "name: ci-fixed")
        { reenteredTask with fix_attempt := 0 }
        (classifiedFailure .FIXABLE_ERROR (some "BUILD FAILURE") (some "failure"))).2 = 0 :=
  ⟨by decide,
   (claim7_fixable_requeue_preserves_pending_count 3
      { reenteredTask with fix_attempt := 0 } "name: ci-fixed"
      (some "BUILD FAILURE") (some "failure") (by decide)).2.1⟩

/-! ## C9: the token pool (src/pipeline/runner.py, class `PATRotator`).

`pats` is the ordered credential list, `current_index` the cursor,
`rate_limited` the set of throttled indices. The `while attempts <
len(self.pats)` loop of `get_pat` is embedded as the fuel recursion
`scanPats` started with fuel equal to the pool size. -/

/-- Embeds the state of `PATRotator` (runner.py lines 66-73). -/
structure PATRotator where
  pats : List String
  current_index : Nat
  rate_limited : Finset Nat

/-- Embeds the rotation loop of `PATRotator.get_pat` (runner.py lines
82-87): starting from the cursor, while attempts remain, return the current
index if it is not rate-limited, else advance the cursor modulo the pool
size. Returns the final cursor and whether a non-limited index was found;
`fuel` starts at `len(self.pats)`. -/
def scanPats (k : Nat) (limited : Finset Nat) : Nat → Nat → Nat × Bool
  | 0, idx => (idx, false)
  | fuel + 1, idx =>
      if idx ∈ limited then scanPats k limited fuel ((idx + 1) % k)
      else (idx, true)

/-- Embeds `PATRotator.get_pat` (runner.py lines 75-91): empty pool returns
`None`; otherwise the rotation loop runs; if it finds a non-limited index
the credential there is returned, else the throttled set is cleared and the
credential at the cursor (which has wrapped back to its starting point) is
returned. The pair also carries the mutated rotator state. -/
def PATRotator.get_pat (r : PATRotator) : Option String × PATRotator :=
  if r.pats.isEmpty then (none, r)
  else
    let s := scanPats r.pats.length r.rate_limited r.pats.length r.current_index
    (r.pats.get? s.1,
     if s.2 then { r with current_index := s.1 }
     else { r with current_index := s.1, rate_limited := ∅ })

/-- Embeds `PATRotator.mark_rate_limited` (runner.py lines 93-97): add the
cursor to the throttled set and advance it modulo the pool size. -/
def PATRotator.mark_rate_limited (r : PATRotator) : PATRotator :=
  { r with
      rate_limited := insert r.current_index r.rate_limited
      current_index := (r.current_index + 1) % r.pats.length }

/-- The rotation loop keeps the cursor inside the pool. -/
theorem scanPats_fst_lt (k : Nat) (limited : Finset Nat) (fuel : Nat)
    (hk : 0 < k) :
    ∀ idx, idx < k → (scanPats k limited fuel idx).1 < k := by
  induction fuel with
  | zero => intro idx hidx; simpa [scanPats] using hidx
  | succ n ih =>
      intro idx hidx
      by_cases h : idx ∈ limited
      · simpa [scanPats, h] using ih _ (Nat.mod_lt _ hk)
      · simpa [scanPats, h] using hidx

/-- When the rotation loop reports a find, the index it returns is not in
the throttled set. -/
theorem scanPats_found_not_mem (k : Nat) (limited : Finset Nat) (fuel : Nat) :
    ∀ idx, (scanPats k limited fuel idx).2 = true →
      (scanPats k limited fuel idx).1 ∉ limited := by
  induction fuel with
  | zero => intro idx h; simp [scanPats] at h
  | succ n ih =>
      intro idx h
      by_cases hm : idx ∈ limited
      · rw [scanPats, if_pos hm] at h ⊢
        exact ih _ h
      · rw [scanPats, if_neg hm]
        exact hm

/-- When every index is throttled, the loop advances the cursor exactly
`fuel` times (modulo the pool size). -/
theorem scanPats_not_found_fst (k : Nat) (limited : Finset Nat) (fuel : Nat)
    (hk : 0 < k) :
    ∀ idx, idx < k → (scanPats k limited fuel idx).2 = false →
      (scanPats k limited fuel idx).1 = (idx + fuel) % k := by
  induction fuel with
  | zero =>
      intro idx hidx _
      simp [scanPats, Nat.mod_eq_of_lt hidx]
  | succ n ih =>
      intro idx hidx h
      by_cases hm : idx ∈ limited
      · rw [scanPats, if_pos hm] at h ⊢
        rw [ih _ (Nat.mod_lt _ hk) h, Nat.mod_add_mod]
        congr 1
        omega
      · rw [scanPats, if_neg hm] at h
        simp at h

/-- C9: for every pool holding at least two pairwise-distinct credentials,
after the current credential is marked rate-limited the next `get_pat`
returns a credential, and it differs from the one just throttled. -/
theorem claim9_next_acquire_avoids_throttled_pat
    (r : PATRotator) (hk : 2 ≤ r.pats.length)
    (hi : r.current_index < r.pats.length) (hnd : r.pats.Nodup) :
    ∃ p, ((r.mark_rate_limited).get_pat).1 = some p
      ∧ p ≠ r.pats.get ⟨r.current_index, hi⟩ := by
  have hk0 : 0 < r.pats.length := by omega
  have hne : r.pats.isEmpty = false := by
    cases hp : r.pats with
    | nil => rw [hp] at hk0; exact absurd hk0 (by simp)
    | cons a l => rfl
  set k := r.pats.length with hkdef
  set i := r.current_index with hidef
  set start := (i + 1) % k with hstart
  have hstartlt : start < k := Nat.mod_lt _ hk0
  set limited2 := insert i r.rate_limited with hlim
  set s := scanPats k limited2 k start with hs
  have hslt : s.1 < k := scanPats_fst_lt k limited2 k hk0 start hstartlt
  have hsne : s.1 ≠ i := by
    cases hfound : s.2 with
    | true =>
        have hnotmem := scanPats_found_not_mem k limited2 k start
        rw [← hs] at hnotmem
        intro hcontra
        exact (hnotmem hfound) (hcontra ▸ Finset.mem_insert_self i r.rate_limited)
    | false =>
        have := scanPats_not_found_fst k limited2 k hk0 start hstartlt
        rw [← hs] at this
        have hval : s.1 = start := by
          rw [this hfound, Nat.add_mod_right, Nat.mod_eq_of_lt hstartlt]
        rw [hval, hstart]
        rcases Nat.lt_or_ge (i + 1) k with hlt | hge
        · rw [Nat.mod_eq_of_lt hlt]; omega
        · have heq : i + 1 = k := by omega
          rw [heq, Nat.mod_self]; omega
  have hget : r.pats.get? s.1 = some (r.pats.get ⟨s.1, hslt⟩) :=
    List.get?_eq_get hslt
  refine ⟨r.pats.get ⟨s.1, hslt⟩, ?_, ?_⟩
  · show ((r.mark_rate_limited).get_pat).1 = _
    simp only [PATRotator.get_pat, PATRotator.mark_rate_limited, hne,
      Bool.false_eq_true, if_false]
    exact hget
  · intro hcontra
    have := (hnd.get_inj_iff).1 hcontra
    exact hsne (congrArg Fin.val this)

/-- Witness for C9 at a concrete two-credential pool with an empty
throttled set. -/
theorem claim9_witness :
    (2 ≤ (PATRotator.mk ["pat-a", "pat-b"] 0 ∅).pats.length)
    ∧ ∃ p, ((PATRotator.mk ["pat-a", "pat-b"] 0 ∅).mark_rate_limited.get_pat).1 = some p
        ∧ p ≠ (PATRotator.mk ["pat-a", "pat-b"] 0 ∅).pats.get ⟨0, by decide⟩ :=
  ⟨by decide,
   claim9_next_acquire_avoids_throttled_pat (PATRotator.mk ["pat-a", "pat-b"] 0 ∅)
     (by decide) (by decide) (by decide)⟩

/-! ## C10: the validation stage (src/pipeline/stages/validate.py,
`validate_yaml` and `_run_actionlint`).

The YAML parser and the `actionlint` subprocess are external; their
behaviour on the given input is the oracle. The availability probe
`subprocess.run(["actionlint", "--version"], check=True, timeout=10)` has
four observable outcomes, three of which the source catches and turns into
"skip this check". -/

/-- Outcome of the actionlint availability probe (validate.py lines 70-79):
success, `CalledProcessError`, `FileNotFoundError`, or
`TimeoutExpired` — the last three are caught together. -/
inductive ProbeOutcome where
  | ok
  | calledProcessError
  | fileNotFound
  | timedOut
deriving DecidableEq, Repr

/-- Outcome of running `actionlint <file>` on the workflow (validate.py
lines 91-112): exit code 0, a non-zero exit with the cleaned non-blank
output lines, a `TimeoutExpired`, or some other raised exception. -/
inductive LintRunOutcome where
  | exitZero
  | exitNonZero (outputLines : List String)
  | timedOut
  | raised (msg : String)
deriving DecidableEq, Repr

/-- The behaviour of the external actionlint binary on this input: the
probe outcome and, when the probe succeeds, the run outcome. -/
structure ActionlintEnv where
  probe : ProbeOutcome
  run : LintRunOutcome
deriving DecidableEq, Repr

/-- Embeds `_run_actionlint` (validate.py lines 62-118): when the
availability probe raises `CalledProcessError`, `FileNotFoundError` or
`TimeoutExpired`, the check is skipped and `(True, [])` returned without
ever linting the workflow; otherwise the result mirrors the subprocess
outcome. -/
def runActionlint (env : ActionlintEnv) : Bool × List String :=
  match env.probe with
  | .calledProcessError => (true, [])
  | .fileNotFound => (true, [])
  | .timedOut => (true, [])
  | .ok =>
      match env.run with
      | .exitZero => (true, [])
      | .exitNonZero outputLines => (false, outputLines)
      | .timedOut => (false, ["actionlint timed out"])
      | .raised msg => (false, ["actionlint error: " ++ msg])

/-- Outcome of `yaml.safe_load` on the input
(`_check_yaml_syntax`, validate.py lines 53-59). -/
inductive YamlParseOutcome where
  | parses
  | parseError (msg : String)
deriving DecidableEq, Repr

/-- Embeds `ValidationResult` from src/pipeline/models.py lines 92-99. -/
structure ValidationResult where
  status : StageStatus
  yaml_valid : Bool
  lint_valid : Bool
  lint_errors : List String
  error : Option String
deriving DecidableEq, Repr

/-- Embeds `validate_yaml` (validate.py lines 17-50): a YAML parse failure
short-circuits to FAILED without linting; otherwise `_run_actionlint`
decides `lint_valid` / `lint_errors` and the stage status. -/
def validate_yaml (parse : YamlParseOutcome) (env : ActionlintEnv) :
    ValidationResult :=
  match parse with
  | .parseError msg =>
      { status := .failed
        yaml_valid := false
        lint_valid := false
        lint_errors := ["YAML syntax error: " ++ msg]
        error := none }
  | .parses =>
      let lint := runActionlint env
      { status := if lint.1 then .success else .failed
        yaml_valid := true
        lint_valid := lint.1
        lint_errors := lint.2
        error := none }

/-- C10: when the actionlint binary is unavailable — the version probe
errors, the binary is missing, or the probe times out — every
syntactically valid YAML input is reported with `lint_valid = true`, empty
`lint_errors` and overall status SUCCESS: the lint gate passes without the
linter ever running on the workflow. -/
theorem claim10_lint_gate_passes_without_actionlint
    (env : ActionlintEnv) (hunavail : env.probe ≠ .ok) :
    validate_yaml .parses env
      = { status := .success
          yaml_valid := true
          lint_valid := true
          lint_errors := []
          error := none } := by
  cases hp : env.probe with
  | ok => exact absurd hp hunavail
  | calledProcessError => simp [validate_yaml, runActionlint, hp]
  | fileNotFound => simp [validate_yaml, runActionlint, hp]
  | timedOut => simp [validate_yaml, runActionlint, hp]

/-- Witness for C10 with the binary missing and a linter that would have
rejected the workflow had it run. -/
theorem claim10_witness :
    (ActionlintEnv.mk .fileNotFound (.exitNonZero ["workflow.yml:1:1: error"])).probe ≠ .ok
    ∧ (validate_yaml .parses
        (ActionlintEnv.mk .fileNotFound (.exitNonZero ["workflow.yml:1:1: error"]))).lint_valid
        = true :=
  ⟨by decide,
   by rw [claim10_lint_gate_passes_without_actionlint
       (ActionlintEnv.mk .fileNotFound (.exitNonZero ["workflow.yml:1:1: error"]))
       (by decide)]⟩
